import Mathlib

/-!
Verification development for the LiquidRound multi-agent M&A workflow system.

The Lean definitions below are a shallow embedding of the Python sources:
  - `src/utils/state.py` (state records and mutators),
  - `src/agents/base_agent.py` (`BaseAgent.execute` wrapper),
  - `src/agents/orchestrator.py` (keyword classification and LLM refinement),
  - `src/agents/target_finder.py` (candidate enrichment),
  - `src/agents/valuer.py` (metric estimation and valuation range),
  - `src/utils/database.py` and `src/utils/workflow_service.py`
    (persistent workflow store and the service-level pipeline).

External effects (LLM calls, yfinance lookups, wall-clock time, JSON
serialisation) are passed in as explicit parameters: an LLM or provider call
becomes an `Except String _` outcome, a market-data lookup becomes a
`String → Option _` function, and timestamps become explicit arguments.
Python `dict`s with dynamic keys are modelled as `String → Option String`;
records with a fixed key set are modelled as structures.
-/

namespace LiquidRound

/-! ## String helpers

The Python `needle in haystack` substring test and `str.lower`. -/

/-- Test `pfx n h` is true when the char list `n` is an initial segment of `h`. -/
def pfx : List Char → List Char → Bool
  | [], _ => true
  | _ :: _, [] => false
  | a :: as, b :: bs => a == b && pfx as bs

/-- Test `hasSub h n`: the char list `n` occurs contiguously inside `h`. -/
def hasSub : List Char → List Char → Bool
  | hay, needle =>
    if pfx needle hay then true
    else
      match hay with
      | [] => false
      | _ :: t => hasSub t needle

/-- Python `needle in haystack` on strings. -/
def strIn (needle haystack : String) : Bool :=
  hasSub haystack.toList needle.toList

/-- Python `str.lower()` (ASCII-adequate for the keyword lists used). -/
def lower (s : String) : String :=
  String.mk (s.data.map Char.toLower)

/-! ## Orchestrator (`src/agents/orchestrator.py`, `_execute_logic`)

The deterministic keyword pass over the lowercased query, then the
defensive parse of the LLM response.  The LLM call itself is an external
effect and enters as an `Except String String` outcome. -/

/-- Buyer-side M&A keywords (first `any` in `_execute_logic`). -/
def buyerKeywords : List String :=
  ["acquire", "acquisition", "buy", "target", "merger", "m&a", "purchase"]

/-- Seller-side keywords checked inside the buyer branch. -/
def sellerSubKeywords : List String :=
  ["sell", "selling", "divest", "exit", "buyer"]

/-- IPO keywords. -/
def ipoKeywords : List String :=
  ["ipo", "public", "listing", "public offering", "go public"]

/-- Seller-side keywords of the third branch. -/
def sellerKeywords : List String :=
  ["sell", "selling", "divest", "exit", "sale"]

/-- The deterministic keyword classification of `_execute_logic`
(lines 20–52): returns `(mode, rationale)`. -/
def keywordMode (user_query : String) : String × String :=
  let q := lower user_query
  if buyerKeywords.any (fun k => strIn k q) then
    if sellerSubKeywords.any (fun k => strIn k q) then
      ("seller_ma", "Detected seller-side M&A keywords in query")
    else
      ("buyer_ma", "Detected buyer-side M&A keywords in query")
  else if ipoKeywords.any (fun k => strIn k q) then
    ("ipo", "Detected IPO-related keywords in query")
  else if sellerKeywords.any (fun k => strIn k q) then
    ("seller_ma", "Detected seller-side keywords in query")
  else
    ("buyer_ma", "Defaulting to buyer-led M&A workflow")

/-- The defensive parse of the LLM response (lines 63–77): on an LLM
exception the keyword mode is kept; otherwise the first of
`seller_ma`, `ipo`, `buyer_ma` found as a substring of the lowercased
response wins, and if none occurs the keyword mode is kept. -/
def refineMode (mode : String) (llmOutcome : Except String String) : String :=
  match llmOutcome with
  | .error _ => mode
  | .ok resp =>
    let r := lower resp
    if strIn "seller_ma" r then "seller_ma"
    else if strIn "ipo" r then "ipo"
    else if strIn "buyer_ma" r then "buyer_ma"
    else mode

/-- The mode computed by the whole of `_execute_logic`. -/
def orchestratorMode (user_query : String) (llmOutcome : Except String String) : String :=
  refineMode (keywordMode user_query).1 llmOutcome

/-! ## Workflow router (`src/workflow.py`, `_route_workflow`) -/

/-- Model of `LiquidRoundWorkflow._route_workflow` (lines 136–145): `state.get("mode",
"buyer_ma")`, then route; anything unrecognized falls to `buyer_ma`. -/
def routeWorkflow (mode : Option String) : String :=
  let m := mode.getD "buyer_ma"
  if m = "seller_ma" then "seller_ma"
  else if m = "ipo" then "ipo"
  else "buyer_ma"

/-! ## In-memory state (`src/utils/state.py`)

`State` is a Python `TypedDict`; at runtime the `deal` sub-dict and the
`agent_results` mapping are plain dicts, modelled here as
`String → Option _` lookups.  Dict values of type `Any` are modelled as
`String` (their content is irrelevant to every claim).  Timestamps
(`datetime.now().isoformat()`) enter as explicit `now` parameters. -/

/-- A conversation message (`Message` TypedDict). -/
structure Message where
  role : String
  content : String
  timestamp : Option String
deriving DecidableEq

/-- An agent execution record (`AgentResult` TypedDict).  `result` payloads
and error messages are opaque strings; `execution_time` is a rational. -/
structure AgentResult where
  agent_name : String
  status : String
  result : Option String
  execution_time : ℚ
  timestamp : String
  error_message : Option String
deriving DecidableEq

/-- The main workflow state (`State` TypedDict). -/
structure AgState where
  mode : String
  messages : List Message
  deal : String → Option String
  current_agent : Option String
  agent_results : String → Option AgentResult
  workflow_status : String
  user_query : String

/-- Model of `add_message(state, role, content)` (state.py lines 97–105). -/
def add_message (st : AgState) (role content now : String) : AgState :=
  { st with messages := st.messages ++ [⟨role, content, some now⟩] }

/-- Model of `update_agent_result(state, agent_name, status, result, execution_time,
error_message)` (state.py lines 108–127): stores a fresh `AgentResult` under
`agent_name` (plain dict assignment, so an upsert) and sets `current_agent`
to the agent exactly when the status is `in_progress`. -/
def update_agent_result (st : AgState) (agent_name status : String)
    (result : Option String) (execution_time : ℚ) (now : String)
    (error_message : Option String) : AgState :=
  let ar : AgentResult :=
    ⟨agent_name, status, result, execution_time, now, error_message⟩
  { st with
    agent_results := fun n => if n = agent_name then some ar else st.agent_results n,
    current_agent := if status = "in_progress" then some agent_name else none }

/-- One `kwargs` item of `update_deal_info`: `if key in state["deal"]:
state["deal"][key] = value` (the dict is only written at keys it already
holds). -/
def dealStep (d : String → Option String) (kv : String × String) :
    String → Option String :=
  if (d kv.1).isSome then
    fun k => if k = kv.1 then some kv.2 else d k
  else d

/-- Model of `update_deal_info(state, **kwargs)` (state.py lines 130–136): fold the
keyword arguments through `dealStep`, then unconditionally set
`updated_at` to the current timestamp. -/
def update_deal_info (st : AgState) (kwargs : List (String × String))
    (now : String) : AgState :=
  let d := kwargs.foldl dealStep st.deal
  { st with deal := fun k => if k = "updated_at" then some now else d k }

/-! ## Agent runner (`src/agents/base_agent.py`, `BaseAgent.execute`)

`execute` wraps `_execute_logic` with error handling: it first records an
`in_progress` result for itself, runs the core logic, and records either a
`success` result (with the payload and elapsed time) or, when the logic
raises, an `error` result carrying `str(e)` and the elapsed time — the
exception is swallowed and the state is returned normally.  The core logic
outcome enters as an `Except String String` value; no agent of the repository
touches `agent_results` from inside `_execute_logic`.  Elapsed time
`time.time() - start_time` enters as the explicit parameter `elapsed`. -/

def execute (name : String) (st : AgState) (logic : Except String String)
    (elapsed : ℚ) (now : String) : AgState :=
  let st1 := update_agent_result st name "in_progress" none 0 now none
  match logic with
  | .ok r => update_agent_result st1 name "success" (some r) elapsed now none
  | .error e => update_agent_result st1 name "error" none elapsed now (some e)

/-! ## Target finder (`src/agents/target_finder.py`)

A parsed candidate row has the seven base fields assigned by
`_parse_targets_from_response`; `_enhance_with_financial_data` may add the
yfinance block (`ticker`, `market_cap`, …) to a candidate.  The yfinance
lookup loop over `_guess_ticker_symbols` is an external effect and enters
as a `String → Option Enrichment` function from company name to the first
first successful ticker; `none` covers both "every ticker attempt raised"
and "no ticker had `marketCap` data" (both leave the candidate untouched). -/

/-- The fields parsed from one markdown table row. -/
structure TargetBase where
  company_name : String
  location : String
  estimated_revenue : String
  estimated_ebitda_margin : String
  strategic_fit_score : String
  investment_highlights : String
  source_rationale : String
deriving DecidableEq

/-- The extra fields `_enhance_with_financial_data` adds on success. -/
structure Enrichment where
  ticker : String
  market_cap : String
  sector : String
  industry : String
  revenue_ttm : String
  employees : String
  website : String
deriving DecidableEq

/-- A candidate target: the parsed base fields, plus the optional
enrichment block. -/
structure Target where
  base : TargetBase
  enrich : Option Enrichment
deriving DecidableEq

/-- Model of `_enhance_with_financial_data(targets)` (target_finder.py lines
87–126): every candidate is copied and appended to the output; when the
provider lookup succeeds the copy gains the enrichment block, otherwise the
candidate is kept as is.  No branch drops a candidate. -/
def enhanceWithFinancialData (lookup : String → Option Enrichment)
    (targets : List Target) : List Target :=
  targets.map fun t =>
    match lookup t.base.company_name with
    | some e => { t with enrich := some e }
    | none => t

/-- The result dict of `TargetFinderAgent._execute_logic`. -/
structure TFResult where
  targets : List Target
  target_count : Nat
  error : Option String
  search_criteria : String
deriving DecidableEq

/-- Model of `TargetFinderAgent._execute_logic` (lines 20–63): on a successful LLM
call the parsed candidates are enriched and `target_count` is
`len(enhanced_targets)`; on an exception the result is an empty list with
`target_count = 0` and the error message.  The LLM call plus parse enters
as an `Except String (List Target)` outcome. -/
def targetFinderLogic (llmOutcome : Except String (List Target))
    (lookup : String → Option Enrichment) (user_query : String) : TFResult :=
  match llmOutcome with
  | .ok ts =>
    let enhanced := enhanceWithFinancialData lookup ts
    ⟨enhanced, enhanced.length, none, user_query⟩
  | .error e => ⟨[], 0, some e, user_query⟩

/-! ## Valuer (`src/agents/valuer.py`)

`_estimate_financial_metrics` and `_estimate_valuation_range` over the
metrics dict.  Only the five numeric keys that these two functions touch
are modelled; an absent dict key is `none`.  Python float parsing of
strings like `"1.5B"` is an external library call: it enters as the already
parsed `Option ℚ` value together with the B-suffix flag
(`none` is the `except` branch of the parse). -/

/-- The metrics dict restricted to the keys read by
`_estimate_valuation_range` / written by `_estimate_financial_metrics`. -/
structure ValMetrics where
  revenue_ttm : Option ℚ
  revenue_estimate : Option ℚ
  ebitda : Option ℚ
  ebitda_estimate : Option ℚ
  ebitda_margin : Option ℚ
deriving DecidableEq

/-- Python `x or d` for a possibly-absent float `x`: both `None` and `0`
are falsy and fall through to `d`. -/
def pyOr (x : Option ℚ) (d : ℚ) : ℚ :=
  match x with
  | some v => if v = 0 then d else v
  | none => d

/-- The line `revenue = metrics.get("revenue_ttm") or metrics.get("revenue_estimate", 0)`
(valuer.py line 249). -/
def resolvedRevenue (m : ValMetrics) : ℚ :=
  pyOr m.revenue_ttm (m.revenue_estimate.getD 0)

/-- The `valuation_range` dict. -/
structure ValuationRange where
  low : ℚ
  mid : ℚ
  high : ℚ
  methodology : String
deriving DecidableEq

/-- Model of `_estimate_valuation_range(analysis)` (valuer.py lines 245–272): the
range starts at zeros and is overwritten with the 2.0×/4.0×/6.0× revenue
multiples only when the resolved revenue is strictly positive.  (`ebitda`
is resolved at line 250 but never used.) -/
def estimateValuationRange (m : ValMetrics) : ValuationRange :=
  let revenue := resolvedRevenue m
  let _ebitda := pyOr m.ebitda (m.ebitda_estimate.getD 0)
  if revenue > 0 then
    ⟨revenue * 2, revenue * 4, revenue * 6, "Multiple-based estimation"⟩
  else
    ⟨0, 0, 0, "Multiple-based estimation"⟩

/-- Model of `_estimate_financial_metrics(target_info)` (valuer.py lines 148–173):
`parsedRevenue` is the float parse of `estimated_revenue` with `$`/`M`/`B`
stripped (`none` when parsing raised, which stores `0`), `hasB` is
the B-suffix test of the revenue string, and `parsedMargin` is the float parse of the EBITDA
margin percentage (`none` falls back to the default 15%). -/
def estimateFinancialMetrics (parsedRevenue : Option ℚ) (hasB : Bool)
    (parsedMargin : Option ℚ) : ValMetrics :=
  let revenue_estimate : ℚ :=
    match parsedRevenue with
    | some v => if hasB then v * 1000 else v
    | none => 0
  match parsedMargin with
  | some p =>
    ⟨none, some revenue_estimate, none, some (revenue_estimate * (p / 100)),
      some (p / 100)⟩
  | none =>
    ⟨none, some revenue_estimate, none, some (revenue_estimate * (15 / 100)),
      some (15 / 100)⟩

/-! ## Persistent store (`src/utils/database.py`) and service pipeline
(`src/utils/workflow_service.py`)

One workflow row plus its `workflow_results` and `messages` rows (all
operations below target a single `workflow_id`, so the id is left
implicit).  `workflow_results` rows are modelled as `(agent_name, status)`
pairs in insertion order — the serialized `result_data` payload and the SQL
timestamps are elided, no claim reads them.  Message contents follow the
branch structure of the service; long formatted texts are abbreviated. -/

/-- The `workflows` row for one workflow plus its dependent rows. -/
structure WorkflowDB where
  status : String
  workflow_type : String
  results : List (String × String)
  messages : List (String × String)
deriving DecidableEq

/-- Model of `DatabaseService.create_workflow(user_query)` (database.py lines
83–96): a fresh row with status `pending` and the default workflow type
`"unknown"`, no results, no messages. -/
def create_workflow (_user_query : String) : WorkflowDB :=
  ⟨"pending", "unknown", [], []⟩

/-- Model of `DatabaseService.update_workflow_status(workflow_id, status,
workflow_type=None)` (database.py lines 98–118): an unconditional SQL
`UPDATE` of `status` (and of `workflow_type` when the optional argument is
truthy — `None` and `""` are falsy).  No validation of the transition is
performed. -/
def update_workflow_status (db : WorkflowDB) (status : String)
    (workflow_type : Option String) : WorkflowDB :=
  if (workflow_type.getD "") ≠ "" then
    { db with status := status, workflow_type := workflow_type.getD "" }
  else
    { db with status := status }

/-- Model of `DatabaseService.save_agent_result(workflow_id, agent_name,
result_data, status, execution_time)` (database.py lines 120–131): a plain
SQL `INSERT` into `workflow_results` — a new row is appended on every
call, there is no conflict clause on `(workflow_id, agent_name)`. -/
def save_agent_result (db : WorkflowDB) (agent_name status : String) :
    WorkflowDB :=
  { db with results := db.results ++ [(agent_name, status)] }

/-- Model of `DatabaseService.add_message(workflow_id, role, content)` (database.py
lines 178–188): appends a message row. -/
def db_add_message (db : WorkflowDB) (role content : String) : WorkflowDB :=
  { db with messages := db.messages ++ [(role, content)] }

/-- The orchestrator result dict as read by
`WorkflowService._execute_workflow` (`workflow_type`, `rationale`). -/
structure OrchOut where
  workflow_type : String
  rationale : String
deriving DecidableEq

/-- The valuer result dict as read by `_execute_ma_workflow`: only the
presence of `valuation_analysis` is branched on. -/
structure ValuerOut where
  valuation_analysis : Option String
deriving DecidableEq

/-- The db row status an agent call outcome is saved with by the service:
`"success"` on normal return, `"failed"` on exception. -/
def outcomeStatus {α : Type} : Except String α → String
  | .ok _ => "success"
  | .error _ => "failed"

/-- Model of `WorkflowService._execute_ma_workflow(workflow_id, user_query,
workflow_type)` (workflow_service.py lines 119–199): announce, run the
target finder (exceptions are caught: a `failed` row and an error message
are recorded and execution continues), announce, run the valuer (same
policy), then unconditionally mark the workflow `completed`.  Each agent
outcome of each call enters as an `Except String _` value. -/
def executeMAWorkflow (db : WorkflowDB) (tf : Except String TFResult)
    (val : Except String ValuerOut) : WorkflowDB :=
  let db1 := db_add_message db "assistant" "Finding acquisition targets..."
  let db2 :=
    match tf with
    | .ok r =>
      let saved := save_agent_result db1 "target_finder" "success"
      if r.targets ≠ [] then
        db_add_message saved "assistant" "Found potential targets"
      else
        db_add_message saved "assistant"
          "Target search completed but no specific targets were identified."
    | .error e =>
      db_add_message (save_agent_result db1 "target_finder" "failed")
        "assistant" ("Target Finder Error: " ++ e)
  let db3 := db_add_message db2 "assistant" "Performing valuation analysis..."
  let db4 :=
    match val with
    | .ok r =>
      let saved := save_agent_result db3 "valuer" "success"
      match r.valuation_analysis with
      | some _ => db_add_message saved "assistant" "Valuation Analysis Complete"
      | none =>
        db_add_message saved "assistant"
          "Valuation analysis completed - detailed metrics captured."
    | .error e =>
      db_add_message (save_agent_result db3 "valuer" "failed")
        "assistant" ("Valuation Error: " ++ e)
  db_add_message (update_workflow_status db4 "completed" none) "assistant"
    "M&A Analysis Complete - All results are available in the detailed view."

/-- Model of `WorkflowService._execute_ipo_workflow` (workflow_service.py lines
201–208): a placeholder message, then `completed`. -/
def executeIPOWorkflow (db : WorkflowDB) : WorkflowDB :=
  update_workflow_status
    (db_add_message db "assistant" "IPO Analysis - Coming soon!") "completed" none

/-- Model of `start_workflow` plus `_execute_workflow` (workflow_service.py lines
51–117): create the row, record the user message, set `routing`, run the
orchestrator.  On an orchestrator exception a `failed` result row is saved,
the status becomes `failed` and the run stops — no pipeline agent is
reached.  On success the result row is saved, the status becomes
`executing` with the routed type, and the type dispatches to the M&A
pipeline, the IPO placeholder, or (unknown type) straight to `completed`. -/
def executeWorkflow (user_query : String) (orch : Except String OrchOut)
    (tf : Except String TFResult) (val : Except String ValuerOut) :
    WorkflowDB :=
  let db0 := db_add_message (create_workflow user_query) "user" user_query
  let db1 := update_workflow_status db0 "routing" none
  match orch with
  | .error _ =>
    update_workflow_status (save_agent_result db1 "orchestrator" "failed")
      "failed" none
  | .ok r =>
    let db2 := save_agent_result db1 "orchestrator" "success"
    let db3 := update_workflow_status db2 "executing" (some r.workflow_type)
    let db4 := db_add_message db3 "assistant"
      ("Workflow Routing: " ++ r.workflow_type ++ " " ++ r.rationale)
    if r.workflow_type = "buyer_ma" ∨ r.workflow_type = "seller_ma" then
      executeMAWorkflow db4 tf val
    else if r.workflow_type = "ipo" then
      executeIPOWorkflow db4
    else
      update_workflow_status db4 "completed" none

/-- A small concrete state used to instantiate the state-level theorems. -/
def sampleState : AgState :=
  ⟨"buyer_ma", [], fun _ => none, none, fun _ => none, "initialized", "q"⟩

/-! ## Claim theorems -/

/-- C1: when the Orchestrator agent execution fails (raises), the service
saves a `failed` orchestrator row, sets the workflow status to `failed` and
returns — no pipeline agent runs, and the stored agent results consist of
the orchestrator entry alone, whatever the (unreached) target finder and
valuer outcomes would have been. -/
theorem orchestrator_failure_is_fatal (q e : String)
    (tf : Except String TFResult) (val : Except String ValuerOut) :
    (executeWorkflow q (.error e) tf val).status = "failed" ∧
    (executeWorkflow q (.error e) tf val).results = [("orchestrator", "failed")] :=
  ⟨rfl, rfl⟩

/-- C2: in the M&A pipeline, a TargetFinder failure is recorded as a
`failed` row but does not abort the run: the Valuer still executes (its row
is recorded right after), and the workflow finishes with status
`completed`, not `failed`, whatever the valuer outcome. -/
theorem target_finder_failure_not_fatal (db : WorkflowDB) (e : String)
    (val : Except String ValuerOut) :
    (executeMAWorkflow db (.error e) val).status = "completed" ∧
    (executeMAWorkflow db (.error e) val).results =
      db.results ++ [("target_finder", "failed"), ("valuer", outcomeStatus val)] := by
  rcases val with e2 | ⟨va⟩
  · simp [executeMAWorkflow, db_add_message, save_agent_result,
      update_workflow_status, outcomeStatus]
  · rcases va with _ | s <;>
      simp [executeMAWorkflow, db_add_message, save_agent_result,
        update_workflow_status, outcomeStatus]

/-- C3 (counterexample): the store does not reject a transition back to
`pending`.  After a workflow has advanced from `pending` to `routing`, an
update back to `pending` is applied and the stored status reverts — the
claimed rejection does not exist in `update_workflow_status`. -/
theorem status_revert_accepted :
    (update_workflow_status
      (update_workflow_status (create_workflow "q") "routing" none)
      "pending" none).status = "pending" := rfl

/-- C3 (amended): `update_workflow_status` performs no transition
validation at all — the stored status after an update is always exactly the
requested value (last write wins), for every prior store state. -/
theorem update_workflow_status_last_write_wins (db : WorkflowDB) (s : String)
    (wt : Option String) : (update_workflow_status db s wt).status = s := by
  unfold update_workflow_status
  split <;> rfl

/-- C4: the valuation range applies the 2.0×/4.0×/6.0× revenue multiples
whenever the resolved revenue (`revenue_ttm`, falling through to
`revenue_estimate` when absent or zero) is strictly positive; when both
revenue figures are absent or zero the range is returned with
low = mid = high = 0 rather than omitted; and a candidate whose estimated
revenue parses to 100 (millions) yields exactly low 200, mid 400,
high 600. -/
theorem valuation_range_revenue_multiples :
    (∀ m : ValMetrics, 0 < resolvedRevenue m →
      estimateValuationRange m =
        ⟨resolvedRevenue m * 2, resolvedRevenue m * 4, resolvedRevenue m * 6,
          "Multiple-based estimation"⟩) ∧
    (∀ m : ValMetrics,
      (m.revenue_ttm = none ∨ m.revenue_ttm = some 0) →
      (m.revenue_estimate = none ∨ m.revenue_estimate = some 0) →
      estimateValuationRange m = ⟨0, 0, 0, "Multiple-based estimation"⟩) ∧
    estimateValuationRange (estimateFinancialMetrics (some 100) false none) =
      ⟨200, 400, 600, "Multiple-based estimation"⟩ := by
  refine ⟨?_, ?_, by
    norm_num [estimateValuationRange, estimateFinancialMetrics, resolvedRevenue,
      pyOr]⟩
  · intro m h
    simp [estimateValuationRange, h]
  · intro m h1 h2
    have hr : resolvedRevenue m = 0 := by
      rcases h1 with h1 | h1 <;> rcases h2 with h2 | h2 <;>
        simp [resolvedRevenue, pyOr, h1, h2]
    simp [estimateValuationRange, hr]

/-- Witness for C4: instantiates both hypotheses at concrete metrics — a
metrics dict with `revenue_estimate = 100` takes the multiples branch, and
the all-absent metrics dict yields the zero range. -/
theorem valuation_range_revenue_multiples_witness :
    (0 < resolvedRevenue ⟨none, some 100, none, none, none⟩ ∧
      estimateValuationRange ⟨none, some 100, none, none, none⟩ =
        ⟨resolvedRevenue ⟨none, some 100, none, none, none⟩ * 2,
          resolvedRevenue ⟨none, some 100, none, none, none⟩ * 4,
          resolvedRevenue ⟨none, some 100, none, none, none⟩ * 6,
          "Multiple-based estimation"⟩) ∧
    estimateValuationRange ⟨none, none, none, none, none⟩ =
      ⟨0, 0, 0, "Multiple-based estimation"⟩ :=
  ⟨⟨by decide,
      valuation_range_revenue_multiples.1 ⟨none, some 100, none, none, none⟩
        (by decide)⟩,
    valuation_range_revenue_multiples.2.1 ⟨none, none, none, none, none⟩
      (Or.inl rfl) (Or.inl rfl)⟩

/-- C5: the `BaseAgent.execute` wrapper converts a raising core logic into
an `error` result for the executing agent itself — carrying the exception
message and the elapsed time — and returns the state normally; for every
outcome the entry of every other agent in `agent_results` is left exactly
as it was. -/
theorem execute_converts_exceptions (name : String) (st : AgState)
    (logic : Except String String) (elapsed : ℚ) (now : String) :
    (∀ e, logic = .error e →
      (execute name st logic elapsed now).agent_results name =
        some ⟨name, "error", none, elapsed, now, some e⟩) ∧
    (∀ m, m ≠ name →
      (execute name st logic elapsed now).agent_results m = st.agent_results m) := by
  constructor
  · intro e he
    subst he
    simp [execute, update_agent_result]
  · intro m hm
    rcases logic with e | r <;> simp [execute, update_agent_result, hm]

/-- Witness for C5: a valuer run that raises `boom` ends with an `error`
entry for the valuer carrying the message, while the orchestrator entry is
untouched. -/
theorem execute_converts_exceptions_witness :
    (execute "valuer" sampleState (.error "boom") 1 "t").agent_results "valuer" =
      some ⟨"valuer", "error", none, 1, "t", some "boom"⟩ ∧
    (execute "valuer" sampleState (.error "boom") 1 "t").agent_results
      "orchestrator" = sampleState.agent_results "orchestrator" :=
  ⟨(execute_converts_exceptions "valuer" sampleState (.error "boom") 1 "t").1
      "boom" rfl,
    (execute_converts_exceptions "valuer" sampleState (.error "boom") 1 "t").2
      "orchestrator" (by decide)⟩

/-- C6: the router always selects one of the three pipelines; an absent
mode and every unrecognized mode fall to `buyer_ma`, and routing is a total
function — no classification can make it fail. -/
theorem route_workflow_defaults (mode : Option String) :
    (routeWorkflow mode = "buyer_ma" ∨ routeWorkflow mode = "seller_ma" ∨
      routeWorkflow mode = "ipo") ∧
    routeWorkflow none = "buyer_ma" ∧
    (∀ m : String, m ≠ "seller_ma" → m ≠ "ipo" →
      routeWorkflow (some m) = "buyer_ma") := by
  refine ⟨?_, rfl, ?_⟩
  · rcases mode with _ | m
    · exact Or.inl rfl
    · by_cases h1 : m = "seller_ma"
      · subst h1; exact Or.inr (Or.inl rfl)
      · by_cases h2 : m = "ipo"
        · subst h2; exact Or.inr (Or.inr rfl)
        · exact Or.inl (by simp [routeWorkflow, h1, h2])
  · intro m h1 h2
    simp [routeWorkflow, h1, h2]

/-- Witness for C6: a gibberish mode and an absent mode both route to
`buyer_ma`. -/
theorem route_workflow_defaults_witness :
    routeWorkflow (some "unknown_mode") = "buyer_ma" ∧
    routeWorkflow none = "buyer_ma" :=
  ⟨(route_workflow_defaults (some "unknown_mode")).2.2 "unknown_mode"
      (by decide) (by decide),
    (route_workflow_defaults none).2.1⟩

/-- C7: per-candidate enrichment never drops a candidate: the enriched list
carries exactly the same base candidates in the same order (each possibly
augmented with the yfinance block), its length equals the input length, and
the `target_count` the agent reports equals the length of the returned
target list. -/
theorem enhancement_keeps_all_candidates (lookup : String → Option Enrichment)
    (ts : List Target) (q : String) :
    (enhanceWithFinancialData lookup ts).map Target.base = ts.map Target.base ∧
    (enhanceWithFinancialData lookup ts).length = ts.length ∧
    (targetFinderLogic (.ok ts) lookup q).target_count =
      (targetFinderLogic (.ok ts) lookup q).targets.length := by
  refine ⟨?_, by simp [enhanceWithFinancialData], rfl⟩
  induction ts with
  | nil => rfl
  | cons t rest ih =>
    simp only [enhanceWithFinancialData, List.map_cons] at ih ⊢
    rw [ih]
    rcases hl : lookup t.base.company_name with _ | e <;> simp [hl]

/-- C8 (counterexample): recording an agent result in the store is not an
upsert — `save_agent_result` is a plain insert, so saving the orchestrator
result twice leaves two stored rows with that agent name, refuting the
at-most-one-entry-per-agent-name claim. -/
theorem save_agent_result_allows_duplicates :
    ((save_agent_result
        (save_agent_result (create_workflow "q") "orchestrator" "success")
        "orchestrator" "success").results.filter
      (fun r => r.1 == "orchestrator")).length = 2 := by decide

/-- C8 (amended): the database layer appends a new result row on every
`save_agent_result` call (so the store can hold several rows per agent
name); only the in-memory `update_agent_result` is an upsert keyed on the
agent name, replacing that agent entry and leaving every other entry
unchanged. -/
theorem agent_result_recording_semantics (db : WorkflowDB) (a s : String)
    (st : AgState) (n status : String) (res : Option String) (t : ℚ)
    (now : String) (err : Option String) :
    (save_agent_result db a s).results = db.results ++ [(a, s)] ∧
    (update_agent_result st n status res t now err).agent_results n =
      some ⟨n, status, res, t, now, err⟩ ∧
    (∀ m, m ≠ n →
      (update_agent_result st n status res t now err).agent_results m =
        st.agent_results m) := by
  refine ⟨rfl, by simp [update_agent_result], ?_⟩
  intro m hm
  simp [update_agent_result, hm]

/-- Witness for C8 (amended): re-recording the orchestrator entry in the
in-memory state replaces it and leaves the valuer entry untouched. -/
theorem agent_result_recording_semantics_witness :
    (update_agent_result sampleState "orchestrator" "success" none 1 "t"
      none).agent_results "orchestrator" =
      some ⟨"orchestrator", "success", none, 1, "t", none⟩ ∧
    (update_agent_result sampleState "orchestrator" "success" none 1 "t"
      none).agent_results "valuer" = sampleState.agent_results "valuer" :=
  ⟨(agent_result_recording_semantics (create_workflow "q") "a" "s" sampleState
      "orchestrator" "success" none 1 "t" none).2.1,
    (agent_result_recording_semantics (create_workflow "q") "a" "s" sampleState
      "orchestrator" "success" none 1 "t" none).2.2 "valuer" (by decide)⟩

/-- C9: the orchestrator computes the mode by the deterministic keyword
pass first, and keeps that mode whenever the LLM response contains none of
the tokens `seller_ma`, `ipo`, `buyer_ma`; the keyword pass classifies the
query `Preparing to sell our B2B software company` as `seller_ma`. -/
theorem orchestrator_keyword_mode_kept :
    (∀ q r : String,
      strIn "seller_ma" (lower r) = false →
      strIn "ipo" (lower r) = false →
      strIn "buyer_ma" (lower r) = false →
      orchestratorMode q (.ok r) = (keywordMode q).1) ∧
    (keywordMode "Preparing to sell our B2B software company").1 = "seller_ma" := by
  refine ⟨?_, by decide⟩
  intro q r h1 h2 h3
  simp [orchestratorMode, refineMode, h1, h2, h3]

/-- Witness for C9: on the sell-side query, with an LLM response that
contains no mode token, the resolved mode is the keyword classification
`seller_ma`. -/
theorem orchestrator_keyword_mode_kept_witness :
    orchestratorMode "Preparing to sell our B2B software company"
      (.ok "Confirmed.") = "seller_ma" :=
  (orchestrator_keyword_mode_kept.1
      "Preparing to sell our B2B software company" "Confirmed."
      (by decide) (by decide) (by decide)).trans
    orchestrator_keyword_mode_kept.2

/-- C10: `update_deal_info` always bumps `updated_at` to the fresh
timestamp, silently ignores keyword arguments whose key is absent from the
deal dict (no new key other than `updated_at` can appear), leaves deal keys
not named by the kwargs untouched, and changes no other field of the state
(messages, agent results, workflow status, mode, user query, current
agent). -/
theorem update_deal_info_frame (st : AgState)
    (kwargs : List (String × String)) (now : String) :
    (update_deal_info st kwargs now).deal "updated_at" = some now ∧
    (∀ k, k ≠ "updated_at" → st.deal k = none →
      (update_deal_info st kwargs now).deal k = none) ∧
    (∀ k, k ≠ "updated_at" → (∀ kv ∈ kwargs, k ≠ kv.1) →
      (update_deal_info st kwargs now).deal k = st.deal k) ∧
    (update_deal_info st kwargs now).messages = st.messages ∧
    (update_deal_info st kwargs now).agent_results = st.agent_results ∧
    (update_deal_info st kwargs now).workflow_status = st.workflow_status ∧
    (update_deal_info st kwargs now).mode = st.mode ∧
    (update_deal_info st kwargs now).user_query = st.user_query ∧
    (update_deal_info st kwargs now).current_agent = st.current_agent := by
  have fold_none : ∀ (ks : List (String × String))
      (d : String → Option String) (k : String),
      d k = none → (ks.foldl dealStep d) k = none := by
    intro ks
    induction ks with
    | nil => intro d k h; exact h
    | cons kv rest ih =>
      intro d k h
      apply ih
      unfold dealStep
      split
      · next hs =>
        by_cases hk : k = kv.1
        · rw [hk] at h; rw [h] at hs; simp at hs
        · simp [hk, h]
      · exact h
  have fold_not_key : ∀ (ks : List (String × String))
      (d : String → Option String) (k : String),
      (∀ kv ∈ ks, k ≠ kv.1) → (ks.foldl dealStep d) k = d k := by
    intro ks
    induction ks with
    | nil => intro d k _; rfl
    | cons kv rest ih =>
      intro d k h
      have hk : k ≠ kv.1 := h kv (List.mem_cons_self kv rest)
      have hrest := ih (dealStep d kv) k
        (fun kv2 h2 => h kv2 (List.mem_cons_of_mem kv h2))
      rw [List.foldl_cons, hrest]
      unfold dealStep
      split
      · simp [hk]
      · rfl
  refine ⟨by simp [update_deal_info], ?_, ?_, rfl, rfl, rfl, rfl, rfl, rfl⟩
  · intro k hk h
    simp [update_deal_info, hk]
    exact fold_none kwargs st.deal k h
  · intro k hk h
    simp [update_deal_info, hk]
    exact fold_not_key kwargs st.deal k h

/-- Witness for C10: on a concrete state whose deal dict is empty, an
unknown kwarg key stays absent, `updated_at` is set, and the messages are
untouched. -/
theorem update_deal_info_frame_witness :
    (update_deal_info sampleState [("company_name", "TestCo")] "t2").deal
      "updated_at" = some "t2" ∧
    (update_deal_info sampleState [("company_name", "TestCo")] "t2").deal
      "company_name" = none ∧
    (update_deal_info sampleState [("company_name", "TestCo")] "t2").messages =
      sampleState.messages :=
  ⟨(update_deal_info_frame sampleState [("company_name", "TestCo")] "t2").1,
    (update_deal_info_frame sampleState [("company_name", "TestCo")] "t2").2.1
      "company_name" (by decide) rfl,
    (update_deal_info_frame sampleState [("company_name", "TestCo")] "t2").2.2.2.1⟩

end LiquidRound
